import Mathlib

/-!
Verification development for the go-kgp Kalah game server.

The Go sources embedded here are:
  * the Game runner (`Game.Start`, `Game.IsCurrent`) from the game coordinator file;
  * the tournament systems `roundRobin`, `random` and `singleElim`;
  * the database layer `SaveGame` / `saveGame` / `saveUser` from `db/db.go`.

The `Board` type and its operations (`Legal`, `Sow`, `Over`, `Random`) are not
part of the available sources (only their call sites are); they are modelled
from the specification, as are the session-layer move dispatcher, the
tournament bookkeeping (`startGame` / `isActive`) and the `select-agent-token`
SQL query.  Each such definition carries a doc comment starting with
"Modelled from the spec:".
-/

/-- The two sides of a Kalah board.  In Go this is a boolean-like type with
`SideNorth` and `SideSouth`; `!side` flips it. -/
inductive Side where
  | North : Side
  | South : Side
deriving DecidableEq, Repr

/-- The Go `!side` flip. -/
def Side.flip : Side → Side
  | Side.North => Side.South
  | Side.South => Side.North

/-- Game outcome for South, `const ( _ = iota; WIN; DRAW; LOSS; RESIGN )`. -/
inductive Outcome where
  | WIN : Outcome
  | DRAW : Outcome
  | LOSS : Outcome
  | RESIGN : Outcome
deriving DecidableEq, Repr

/-- Modelled from the spec: the Kalah board.  `size` pits per side, pit
sequences for north and south, and the two stores. -/
structure Board where
  size : Nat
  south : List Nat
  north : List Nat
  southStore : Nat
  northStore : Nat
deriving DecidableEq, Repr

/-- Modelled from the spec: `makeBoard(size, init)` builds a board with
`init` stones in each of the `size` pits on both sides and empty stores. -/
def makeBoard (size init : Nat) : Board :=
  { size := size
    south := List.replicate size init
    north := List.replicate size init
    southStore := 0
    northStore := 0 }

/-- Pits of the given side. -/
def Board.pitsOf (b : Board) : Side → List Nat
  | Side.North => b.north
  | Side.South => b.south

/-- Store of the given side. -/
def Board.storeOf (b : Board) : Side → Nat
  | Side.North => b.northStore
  | Side.South => b.southStore

/-- True when every pit in the list is empty. -/
def allEmptyPits (l : List Nat) : Bool :=
  l.all (fun n => n == 0)

/-- Sum of a pit list. -/
def sumPits (l : List Nat) : Nat :=
  l.foldl (fun a x => a + x) 0

/-- Modelled from the spec: `Legal(side, pit)` — `0 ≤ pit < size` and the
named pit is non-empty (the side argument is the side owning the turn at
every call site). -/
def Board.Legal (b : Board) (s : Side) (pit : Nat) : Bool :=
  decide (pit < b.size ∧ (b.pitsOf s).getD pit 0 ≠ 0)

/-- Drop `stones` one at a time counter-clockwise, skipping the opponent's
store.  Positions are relative to the sowing side: `0..size-1` its own pits,
`size` its own store, `size+1..2*size` the opponent's pits; the cycle length
is `2*size+1`.  Returns the updated own pits, own store, opponent pits, and
the position of the last stone dropped. -/
def dropStones (size : Nat) :
    Nat → Nat → List Nat → Nat → List Nat → (List Nat × Nat × List Nat × Nat)
  | 0, pos, own, store, opp => (own, store, opp, pos)
  | stones + 1, pos, own, store, opp =>
    let pos2 := (pos + 1) % (2 * size + 1)
    if pos2 < size then
      dropStones size stones pos2 (own.set pos2 ((own.getD pos2 0) + 1)) store opp
    else if pos2 = size then
      dropStones size stones pos2 own (store + 1) opp
    else
      dropStones size stones pos2 own store
        (opp.set (pos2 - size - 1) ((opp.getD (pos2 - size - 1) 0) + 1))

/-- Modelled from the spec: the sweep rule — when one side's pits run empty,
the other side's remaining stones move to that other side's store. -/
def Board.sweep (b : Board) : Board :=
  let southEmpty := allEmptyPits b.south
  let northEmpty := allEmptyPits b.north
  let b1 :=
    if southEmpty then
      { b with north := List.replicate b.size 0,
               northStore := b.northStore + sumPits b.north }
    else b
  if northEmpty then
    { b1 with south := List.replicate b1.size 0,
              southStore := b1.southStore + sumPits b1.south }
  else b1

/-- Modelled from the spec: `Sow(side, pit)` distributes the stones of
(side, pit) counter-clockwise skipping the opponent's store, applies the
capture rule (last stone landing in an empty own pit with a non-empty
opposite pit captures both into the own store), returns `true` exactly when
the last stone lands in the own store (the again rule), and applies the
sweep rule.  The result pairs the new board with the again flag. -/
def Board.Sow (b : Board) (s : Side) (pit : Nat) : Board × Bool :=
  let own0 := b.pitsOf s
  let opp0 := b.pitsOf s.flip
  let store0 := b.storeOf s
  let oppStore0 := b.storeOf s.flip
  let stones := own0.getD pit 0
  let own1 := own0.set pit 0
  let r := dropStones b.size stones pit own1 store0 opp0
  let own2 := r.1
  let store2 := r.2.1
  let opp2 := r.2.2.1
  let last := r.2.2.2
  let doCapture :=
    decide (stones ≠ 0) && decide (last < b.size) &&
    decide (own2.getD last 0 = 1) && decide (opp2.getD (b.size - 1 - last) 0 ≠ 0)
  let store3 :=
    if doCapture then store2 + own2.getD last 0 + opp2.getD (b.size - 1 - last) 0
    else store2
  let own3 := if doCapture then own2.set last 0 else own2
  let opp3 := if doCapture then opp2.set (b.size - 1 - last) 0 else opp2
  let again := decide (stones ≠ 0) && decide (last = b.size)
  let b2 : Board :=
    match s with
    | Side.South =>
      { b with south := own3, north := opp3,
               southStore := store3, northStore := oppStore0 }
    | Side.North =>
      { b with north := own3, south := opp3,
               northStore := store3, southStore := oppStore0 }
  (b2.sweep, again)

/-- Modelled from the spec: `Over()` — either side's pits are all empty. -/
def Board.Over (b : Board) : Bool :=
  allEmptyPits b.south || allEmptyPits b.north

/-- Modelled from the spec: `Random(side)` uniformly samples a legal pit;
no claim below depends on the distribution, so it is modelled as the least
legal pit. -/
def Board.Random (b : Board) (s : Side) : Nat :=
  ((List.range b.size).find? (fun p => b.Legal s p)).getD 0

/-- A connected client, as seen by the Game runner: identity, the `simple`
protocol-dialect flag and the `nstop` / `nyield` counters. -/
structure Client where
  id : Nat
  simple : Bool
  nstop : Nat
  nyield : Nat
deriving DecidableEq, Repr

/-- A `Move` action arriving on the game's move channel: the chosen pit, the
sending client, the yield flag and the id of the `state` request it answers. -/
structure MoveMsg where
  pit : Nat
  client : Client
  yield : Bool
  ref : Nat
deriving DecidableEq, Repr

/-- The WAITING-state data of one running game: board, current side, the id
`last` of the outstanding `state` request, the two clients, the currently
recorded `choice` and the (abstracted) per-move deadline timer. -/
structure GameSt where
  board : Board
  side : Side
  last : Nat
  north : Client
  south : Client
  choice : Option MoveMsg
  timer : Nat
deriving DecidableEq, Repr

/-- `Game.Current()` — the player whose turn it is. -/
def GameSt.Current (g : GameSt) : Client :=
  match g.side with
  | Side.North => g.north
  | Side.South => g.south

/-- `Game.IsCurrent(cli, ref)` from the source: the game is waiting for
`cli` and the echoed reference is the outstanding request id or zero. -/
def GameSt.IsCurrent (g : GameSt) (cli : Client) (ref : Nat) : Bool :=
  decide (g.Current = cli) && (decide (g.last = ref) || decide (ref = 0))

/-- Server-to-client frames emitted while processing one move reply. -/
inductive OutMsg where
  | error : Nat → String → OutMsg
deriving DecidableEq, Repr

/-- The text of the illegal-move error frame (`"Illegal move %d"` with the
one-based pit number). -/
def illegalMoveMsg (pit : Nat) : String :=
  "Illegal move " ++ toString (pit + 1)

/-- The `case m := <-move` branch of `Game.Start`'s select loop: yields end
the turn if they come from the current player; a move from a simple-dialect
client with pending stops is discarded; an illegal move draws an error frame;
otherwise the move is recorded as `choice`.  Returns the new state, the
emitted frames, and the `next` flag (turn ends now). -/
def moveBranch (g : GameSt) (m : MoveMsg) : GameSt × List OutMsg × Bool :=
  if m.yield = true then
    if m.client = g.Current then (g, [], true) else (g, [], false)
  else if m.client.simple = true ∧ m.client.nstop ≠ m.client.nyield then
    (g, [], false)
  else if g.board.Legal g.side m.pit = false then
    (g, [OutMsg.error m.ref (illegalMoveMsg m.pit)], false)
  else
    ({ g with choice := some m }, [], false)

/-- Modelled from the spec: the session layer (absent from the sources)
forwards a move reply to the game runner only when `Game.IsCurrent` accepts
the sender and the echoed id; other replies are dropped without effect. -/
def deliverMove (g : GameSt) (m : MoveMsg) : GameSt × List OutMsg × Bool :=
  if g.IsCurrent m.client m.ref = true then moveBranch g m else (g, [], false)

/-- One `Board.Sow` invocation performed by the ADVANCING loop, with the
legality of the move at the moment of the call and the returned again flag. -/
structure SowCall where
  side : Side
  pit : Nat
  legal : Bool
  again : Bool
deriving DecidableEq, Repr

/-- How one run of the ADVANCING inner loop ends: the board became over, the
Go code dereferenced the nil `choice` pointer, or the modelling fuel ran out
(the Go loop would continue from the recorded board and side). -/
inductive AdvanceResult where
  | finished : Board → Side → AdvanceResult
  | nilPanic : AdvanceResult
  | outOfFuel : Board → Side → AdvanceResult
deriving DecidableEq, Repr

/-- The inner loop of the ADVANCING step of `Game.Start`, transcribed from
the source: if `choice` is nil the Go code executes `choice.Pit = ...` on a
nil pointer (modelled as `nilPanic`); if the current player is in simple
dialect with pending stops the pit is replaced by `Board.Random`; the move is
appended and sown; the loop stops only when the board is over, flipping the
side (without exiting) when `Sow` returns false.  `imb` gives, per side,
whether `g.Current().simple && nstop != nyield` holds; the accumulator
records every `Sow` call in order. -/
def advanceLoop (imb : Side → Bool) :
    Nat → Board → Side → Option Nat → List SowCall → (List SowCall × AdvanceResult)
  | 0, b, s, _, acc => (acc.reverse, AdvanceResult.outOfFuel b s)
  | fuel + 1, b, s, choice, acc =>
    match choice with
    | none => (acc.reverse, AdvanceResult.nilPanic)
    | some pit0 =>
      let pit := if imb s = true then b.Random s else pit0
      let leg := b.Legal s pit
      let r := b.Sow s pit
      let acc2 := { side := s, pit := pit, legal := leg, again := r.2 } :: acc
      if r.1.Over = true then (acc2.reverse, AdvanceResult.finished r.1 s)
      else advanceLoop imb fuel r.1 (if r.2 = true then s else s.flip) (some pit) acc2

/-- The ADVANCING step as entered from WAITING (deadline fired or yield
received): the loop starts from the game's board, side and currently held
`choice`. -/
def deadlineAdvance (imb : Side → Bool) (fuel : Nat) (g : GameSt) :
    List SowCall × AdvanceResult :=
  advanceLoop imb fuel g.board g.side (g.choice.map (fun m => m.pit)) []

/-- A game to be played in a single-elimination tournament (South and North
participant ids, as built by `singleElim.start`). -/
structure SEGame where
  south : Nat
  north : Nat
deriving DecidableEq, Repr

/-- Single-elimination tournament state: the ordered participant list, the
eliminated list, and — modelled from the spec — the tournament's set of
active games (`t.startGame` adds a game to it; a client `isActive` when it
takes part in one). -/
structure SESt where
  participants : List Nat
  elim : List Nat
  activeGames : List SEGame
deriving DecidableEq, Repr

/-- `singleElim.eliminated(cli)`. -/
def seEliminated (st : SESt) (cli : Nat) : Bool :=
  st.elim.contains cli

/-- Modelled from the spec: `t.isActive(cli)` — the client is a player of a
game currently in flight. -/
def seIsActive (st : SESt) (cli : Nat) : Bool :=
  st.activeGames.any (fun gm => decide (gm.south = cli ∨ gm.north = cli))

/-- The inner `for j` loop of `singleElim.start`, transcribed from the
source: each iteration reads `ilc := t.participants[i]` (the source uses the
outer index `i`, not `j`), skips eliminated or active clients, and on the
first hit starts `Game{South: cli, North: ilc}` and breaks. -/
def seInner (st : SESt) (cli : Nat) (pi : Nat) : List Nat → SESt
  | [] => st
  | _ :: rest =>
    let ilc := st.participants.getD pi 0
    if seEliminated st ilc = true ∨ seIsActive st ilc = true then
      seInner st cli pi rest
    else
      { st with activeGames := st.activeGames ++ [{ south := cli, north := ilc }] }

/-- The outer `for i` loop of `singleElim.start`. -/
def seOuter (st : SESt) : List Nat → SESt
  | [] => st
  | i :: rest =>
    let cli := st.participants.getD i 0
    let st2 :=
      if seEliminated st cli = true ∨ seIsActive st cli = true then st
      else seInner st cli i (List.range' (i + 1) (st.participants.length - (i + 1)))
    seOuter st2 rest

/-- `singleElim.start(t)`: scan pairs of non-eliminated, non-active
participants and submit games. -/
def seStart (st : SESt) : SESt :=
  seOuter st (List.range st.participants.length)

/-- Round-robin tournament state: `games` is the pending pairing set
(`none` until the first `Ready` generates it), `ready` the list of ready
clients, and — modelled from the spec — `started` records the games handed
to `t.startGame`, in order. -/
structure RRSt where
  games : Option (List (Nat × Nat))
  ready : List Nat
  started : List (Nat × Nat)
deriving DecidableEq, Repr

/-- The fresh round-robin state. -/
def rrFresh : RRSt :=
  { games := none, ready := [], started := [] }

/-- Pairing generation on the first `Ready`: for participants indices
`i > j`, the game `{North: participants[i], South: participants[j]}`. -/
def rrPairs (parts : List Nat) : List (Nat × Nat) :=
  (parts.enum.map (fun pa =>
    parts.enum.filterMap (fun pb =>
      if pb.1 < pa.1 then some (pa.2, pb.2) else none))).flatten

/-- The inner game search of `roundRobin.Ready`: the first pending game
pairing `cli` with `ilc` in either orientation. -/
def rrFindMatch (gs : List (Nat × Nat)) (cli ilc : Nat) : Option (Nat × Nat) :=
  gs.find? (fun gm =>
    decide ((gm.1 = cli ∧ gm.2 = ilc) ∨ (gm.1 = ilc ∧ gm.2 = cli)))

/-- The ready-list scan of `roundRobin.Ready`: the first ready index whose
client still has a pending game against `cli`, together with that game. -/
def rrTryMatch (gs : List (Nat × Nat)) (ready : List Nat) (cli : Nat) :
    Option (Nat × (Nat × Nat)) :=
  (ready.enum.filterMap (fun p =>
    (rrFindMatch gs cli p.2).map (fun gm => (p.1, gm)))).head?

/-- The Go slice trick used to delete `ready[i]`: overwrite with the last
element and truncate. -/
def removeSwap (l : List Nat) (i : Nat) : List Nat :=
  (l.set i (l.getLast?.getD 0)).dropLast

/-- `roundRobin.Ready(t, cli)`, transcribed from the source: generate the
pairing set on first use; if a ready client still has a pending game with
`cli`, remove the ready client and the pairing and start the game (the
pairing leaves the set when the game starts); otherwise append `cli` to the
ready list. -/
def rrReady (parts : List Nat) (st : RRSt) (cli : Nat) : RRSt :=
  let gs :=
    match st.games with
    | none => rrPairs parts
    | some gs0 => gs0
  match rrTryMatch gs st.ready cli with
  | some im =>
    { games := some (gs.erase im.2), ready := removeSwap st.ready im.1,
      started := st.started ++ [im.2] }
  | none =>
    { games := some gs, ready := st.ready ++ [cli], started := st.started }

/-- `roundRobin.Record` is a no-op: game results do not change the
scheduler state. -/
def rrRecord (st : RRSt) : RRSt :=
  st

/-- `roundRobin.Over(t)`: the pairing set has been generated and is empty. -/
def rrOver (st : RRSt) : Bool :=
  match st.games with
  | none => false
  | some gs => gs.isEmpty

/-- Fold a sequence of `Ready` calls over a round-robin state. -/
def rrRun (parts : List Nat) (st : RRSt) (events : List Nat) : RRSt :=
  events.foldl (fun s c => rrReady parts s c) st

/-- Random-baseline tournament state: the `done` map (`none` until the
first `Ready` initialises it with the nil client) and — modelled from the
spec — the list of started games, identified by their South participant. -/
structure RndSt where
  done : Option (List (Option Nat))
  started : List Nat
deriving DecidableEq, Repr

/-- The fresh random-baseline state. -/
def rndFresh : RndSt :=
  { done := none, started := [] }

/-- The members of the `done` map; the Go `len` of a nil map is zero. -/
def doneList (st : RndSt) : List (Option Nat) :=
  match st.done with
  | none => []
  | some d => d

/-- `random.Ready(t, cli)`: initialise `done` with the nil client on first
use; if `cli` is already done do nothing, else start a game with `cli` as
South against the built-in random opponent (`North: nil`). -/
def rndReady (st : RndSt) (cli : Nat) : RndSt :=
  let d :=
    match st.done with
    | none => [none]
    | some d0 => d0
  if (some cli) ∈ d then { st with done := some d }
  else { done := some d, started := st.started ++ [cli] }

/-- Map insertion for the `done` set. -/
def insertDone (d : List (Option Nat)) (cli : Nat) : List (Option Nat) :=
  if (some cli) ∈ d then d else d ++ [some cli]

/-- The Go swap-delete of the first occurrence of `cli` in the participant
slice (`participants[i] = participants[len-1]; truncate`). -/
def removeFirstSwap (l : List Nat) (cli : Nat) : List Nat :=
  let i := l.findIdx (fun x => x == cli)
  if i < l.length then (l.set i (l.getLast?.getD 0)).dropLast else l

/-- `random.Record(t, g)`: a South participant that did not win is removed
from the participant list; either way it is added to `done`.  (The source
assumes `done` was initialised by a previous `Ready`; an uninitialised nil
map would panic on insertion in Go, a case no claim exercises.) -/
def rndRecord (parts : List Nat) (st : RndSt) (southCli : Nat) (o : Outcome) :
    List Nat × RndSt :=
  let parts2 := if o = Outcome.WIN then parts else removeFirstSwap parts southCli
  (parts2, { st with done := some (insertDone (doneList st) southCli) })

/-- `random.Over(t)`: `len(t.participants) <= len(rnd.done)`. -/
def rndOver (parts : List Nat) (st : RndSt) : Bool :=
  decide (parts.length ≤ (doneList st).length)

/-- A `kgp.User`: server-assigned `Id` (zero while unsaved), opaque token,
name, description and author. -/
structure User where
  Id : Int
  Token : String
  Name : String
  Descr : String
  Author : String
deriving DecidableEq, Repr

/-- One row of the `agent` table. -/
structure AgentRow where
  id : Int
  token : String
  name : String
  descr : String
  author : String
deriving DecidableEq, Repr

/-- One row of the `game` table: board type, the two agent ids and the
canonical board-state string. -/
structure GameRow where
  id : Int
  size : Nat
  init : Nat
  northId : Int
  southId : Int
  state : String
deriving DecidableEq, Repr

/-- The relational state visible to the database layer. -/
structure DBState where
  agents : List AgentRow
  games : List GameRow
deriving DecidableEq, Repr

/-- The SQLite rowid the next agent insert receives. -/
def nextAgentId (d : DBState) : Int :=
  (d.agents.foldl (fun m r => max m r.id) 0) + 1

/-- The SQLite rowid the next game insert receives. -/
def nextGameId (d : DBState) : Int :=
  (d.games.foldl (fun m r => max m r.id) 0) + 1

/-- Modelled from the spec: the `select-agent-token` query (its SQL file is
not among the sources).  Agents are append-only on identity drift, so the
row describing an agent's current identity is the most recently inserted row
with the given token. -/
def lookupAgentToken (d : DBState) (tok : String) : Option AgentRow :=
  (d.agents.filter (fun r => r.token == tok)).getLast?

/-- The `insert-agent` statement executed inside the transaction `tx`; the
`fail` flag is the failure oracle for the Exec call.  On success the user
receives the fresh rowid. -/
def insertAgent (fail : Bool) (tx : DBState) (u : User) : DBState × User × Bool :=
  if fail = true then (tx, u, false)
  else
    ({ tx with agents := tx.agents ++
        [{ id := nextAgentId tx, token := u.Token, name := u.Name,
           descr := u.Descr, author := u.Author }] },
     { u with Id := nextAgentId tx }, true)

/-- `db.saveUser` from the source: an already-saved user (`Id ≠ 0`) is left
alone; with a non-empty token, the committed rows are queried (the read
connection sees `committed`, not the uncommitted `tx`); a row whose stored
name and description match yields the stored id with no insert; a differing
name or description falls through to a fresh insert, as does a missing row
or an empty token. -/
def saveUser (fail : Bool) (committed tx : DBState) (u : User) :
    DBState × User × Bool :=
  if u.Id ≠ 0 then (tx, u, true)
  else if u.Token = "" then insertAgent fail tx u
  else
    match lookupAgentToken committed u.Token with
    | none => insertAgent fail tx u
    | some row =>
      let u2 := { u with Id := row.id }
      if u.Name ≠ row.name then insertAgent fail tx u2
      else if u.Descr ≠ row.descr then insertAgent fail tx u2
      else (tx, u2, true)

/-- A game as held by the runner when it reaches the database layer: the
board type, both users and the canonical state string. -/
structure GameObj where
  Id : Int
  size : Nat
  init : Nat
  north : User
  south : User
  state : String
deriving DecidableEq, Repr

/-- The effect of the `update-game` statement on the game table: only the
state string of the addressed row is rewritten. -/
def updateGameState (rows : List GameRow) (gid : Int) (st : String) : List GameRow :=
  rows.map (fun r => if r.id = gid then { r with state := st } else r)

/-- `db.saveGame` from the source: with `Id = 0` run `insert-game` and
assign the fresh id; otherwise run `update-game`, which rewrites only the
state string of the addressed row.  `fail` is the failure oracle for the
statement execution. -/
def saveGameTx (fail : Bool) (tx : DBState) (g : GameObj) : DBState × GameObj × Bool :=
  if fail = true then (tx, g, false)
  else if g.Id = 0 then
    ({ tx with games := tx.games ++
        [{ id := nextGameId tx, size := g.size, init := g.init,
           northId := g.north.Id, southId := g.south.Id, state := g.state }] },
     { g with Id := nextGameId tx }, true)
  else
    ({ tx with games := updateGameState tx.games g.Id g.state }, g, true)

/-- The failure oracle for the three statement executions inside one
`SaveGame` transaction. -/
structure SGFail where
  southFail : Bool
  northFail : Bool
  gameFail : Bool
deriving DecidableEq, Repr

/-- The all-successful oracle. -/
def sgNoFail : SGFail :=
  { southFail := false, northFail := false, gameFail := false }

/-- `db.SaveGame` from the source: begin a transaction, upsert the South
then the North user (their boolean results are discarded), upsert the game,
and commit only if the game upsert succeeded — the deferred rollback
otherwise discards the transaction.  Returns the committed database and the
game object with its mutations. -/
def SaveGame (f : SGFail) (d : DBState) (g : GameObj) : DBState × GameObj :=
  let r1 := saveUser f.southFail d d g.south
  let r2 := saveUser f.northFail d r1.1 g.north
  let g1 := { g with south := r1.2.1, north := r2.2.1 }
  let r3 := saveGameTx f.gameFail r2.1 g1
  if r3.2.2 = true then (r3.1, r3.2.1) else (d, r3.2.1)

/-- A non-simple South client used in the concrete game states below. -/
def clientS : Client :=
  { id := 1, simple := false, nstop := 0, nyield := 0 }

/-- A non-simple North client used in the concrete game states below. -/
def clientN : Client :=
  { id := 2, simple := false, nstop := 0, nyield := 0 }

/-- A simple-dialect South client with one unanswered `stop`
(`nstop = 1 > nyield = 0`). -/
def clientSimple : Client :=
  { id := 3, simple := true, nstop := 1, nyield := 0 }

/-- A WAITING game on the initial 3-by-3 board: South to move, outstanding
request id 5, no move recorded. -/
def gameStEx : GameSt :=
  { board := makeBoard 3 3, side := Side.South, last := 5,
    north := clientN, south := clientS, choice := none, timer := 1 }

/-- The same WAITING state with the simple-dialect client as South. -/
def gameStSimple : GameSt :=
  { board := makeBoard 3 3, side := Side.South, last := 5,
    north := clientN, south := clientSimple, choice := none, timer := 1 }

/-- A legal move reply from the current client that echoes reference 0
rather than the outstanding id 5. -/
def msgZeroRef : MoveMsg :=
  { pit := 0, client := clientS, yield := false, ref := 0 }

/-- A legal move reply from the current client echoing the stale id 3. -/
def msgStale : MoveMsg :=
  { pit := 0, client := clientS, yield := false, ref := 3 }

/-- An illegal move (pit 9 on a 3-pit board) from the current client,
echoing the outstanding id. -/
def msgIllegal : MoveMsg :=
  { pit := 9, client := clientS, yield := false, ref := 5 }

/-- An illegal move from the simple-dialect current client with a pending
stop, echoing the outstanding id. -/
def msgIllegalSimple : MoveMsg :=
  { pit := 9, client := clientSimple, yield := false, ref := 5 }

/-- The single-elimination state with two fresh participants. -/
def seStEx : SESt :=
  { participants := [1, 2], elim := [], activeGames := [] }

/-- A `Ready`-call schedule for the four-participant round robin that plays
games to completion one or two at a time (a client is re-readied only after
its game finished) and ends exactly when the sixth and last pairing is
handed to `startGame`; no `Record` call is included because
`roundRobin.Record` is a no-op. -/
def rrSeq : List Nat :=
  [0, 1, 0, 1, 2, 3, 0, 2, 1, 3, 2, 3]

/-- The empty database. -/
def dbEmpty : DBState :=
  { agents := [], games := [] }

/-- An unsaved South user. -/
def userS7 : User :=
  { Id := 0, Token := "s", Name := "S", Descr := "", Author := "" }

/-- An unsaved North user. -/
def userN7 : User :=
  { Id := 0, Token := "n", Name := "N", Descr := "", Author := "" }

/-- An unsaved game between the two unsaved users. -/
def gameEx7 : GameObj :=
  { Id := 0, size := 6, init := 6, north := userN7, south := userS7,
    state := "st" }

/-- A database holding one agent row with token `tok`. -/
def db10 : DBState :=
  { agents := [{ id := 7, token := "tok", name := "Ann", descr := "D",
                 author := "" }],
    games := [] }

/-- The agent row stored in `db10`. -/
def row10 : AgentRow :=
  { id := 7, token := "tok", name := "Ann", descr := "D", author := "" }

/-- An unsaved user whose token, name and description match `row10`. -/
def user10 : User :=
  { Id := 0, Token := "tok", Name := "Ann", Descr := "D", Author := "A" }

/-- An unsaved user with the same token but a different name. -/
def user10b : User :=
  { Id := 0, Token := "tok", Name := "Bob", Descr := "D", Author := "A" }

/-- The game row that `SaveGame` inserts on a first save: the fresh rowid,
the board type, the ids the two users hold after their upserts, and the
state string. -/
def insertedRow (f : SGFail) (d : DBState) (g : GameObj) : GameRow :=
  { id := nextGameId d
    size := g.size
    init := g.init
    northId := (saveUser f.northFail d (saveUser f.southFail d d g.south).1 g.north).2.1.Id
    southId := (saveUser f.southFail d d g.south).2.1.Id
    state := g.state }

/-- Claim C1 (code bug): from the initial 3-by-3 board with South's recorded
choice pit 2, the first `Sow` returns false (no again) and leaves the board
unfinished, yet the ADVANCING inner loop of `Game.Start` does not return to
WAITING: its only exit is the board being over, so it flips the side and at
once applies the same choice for North — two different sides move inside a
single ADVANCING step, against the one-chain-per-turn behaviour the claim
and the spec describe. -/
theorem c1_inner_loop_crosses_turns :
    (((makeBoard 3 3).Sow Side.South 2).2 = false) ∧
    (((makeBoard 3 3).Sow Side.South 2).1.Over = false) ∧
    ((advanceLoop (fun _ => false) 2 (makeBoard 3 3) Side.South (some 2) []).1 =
      [{ side := Side.South, pit := 2, legal := true, again := false },
       { side := Side.North, pit := 2, legal := true, again := false }]) :=
  ⟨by decide, by decide, by decide⟩

/-- Claim C2 (code bug): when the deadline fires in WAITING with no move
recorded, `choice` is the nil pointer and the Go statement
`choice.Pit = g.Board.Random(g.side)` dereferences it — the game does not
advance with a substituted random move, it panics. -/
theorem c2_deadline_nil_choice_panics :
    gameStEx.choice = none ∧
    deadlineAdvance (fun _ => false) 8 gameStEx = ([], AdvanceResult.nilPanic) :=
  ⟨by decide, by decide⟩

/-- Claim C3 (code bug): `singleElim.start` with two fresh participants
pairs participant 1 with itself — the inner loop reads
`t.participants[i]` instead of `t.participants[j]` — and submits a game
whose North and South are the same client. -/
theorem c3_single_elim_self_pairing :
    (seStart seStEx).activeGames = [{ south := 1, north := 1 }] ∧
    (seStart seStEx).activeGames.any (fun gm => decide (gm.north = gm.south)) = true :=
  ⟨by decide, by decide⟩

/-- Claim C6 (code bug): from the initial 3-by-3 board with South's choice
pit 0, the first `Sow` ends in South's store (again), and the loop's second
iteration re-applies the unchanged choice: `Sow(South, 0)` is invoked while
`Legal(South, 0)` is false, because pit 0 is now empty. -/
theorem c6_sow_called_illegal :
    (advanceLoop (fun _ => false) 2 (makeBoard 3 3) Side.South (some 0) []).1 =
      [{ side := Side.South, pit := 0, legal := true, again := true },
       { side := Side.South, pit := 0, legal := false, again := false }] := by
  decide

/-- Claim C4, counterexample: after the `Ready` schedule `rrSeq` — which
contains no game completion, and completions could not matter because
`roundRobin.Record` is the identity — all six games have been started and
`Over` is already true, refuting "Over becomes true only after the 6th game
has completed (not merely started)". -/
theorem c4_over_before_completion :
    rrOver (rrRun [0, 1, 2, 3] rrFresh rrSeq) = true ∧
    (rrRun [0, 1, 2, 3] rrFresh rrSeq).started.length = 6 ∧
    rrRecord (rrRun [0, 1, 2, 3] rrFresh rrSeq) = rrRun [0, 1, 2, 3] rrFresh rrSeq :=
  ⟨by decide, by decide, rfl⟩

/-- Claim C5, counterexample: a non-yield move from the current client that
echoes reference 0 while the outstanding request id is 5 is not ignored —
`IsCurrent` accepts `ref == 0` — and is recorded as the game's choice. -/
theorem c5_zero_ref_accepted :
    msgZeroRef.yield = false ∧
    msgZeroRef.client = gameStEx.Current ∧
    msgZeroRef.ref ≠ gameStEx.last ∧
    (deliverMove gameStEx msgZeroRef).1.choice = some msgZeroRef ∧
    (deliverMove gameStEx msgZeroRef).1 ≠ gameStEx :=
  ⟨by decide, by decide, by decide, by decide, by decide⟩

/-- Claim C8, counterexample: participants {1, 2}; client 1 plays and loses.
It is removed from the participant list and added to `done`, so
`len(participants) = 1 ≤ 2 = len(done)` makes `Over` true although
participant 2 never played and is not in the `done` set. -/
theorem c8_over_without_all_done :
    (let st1 := rndReady rndFresh 1
     let pr := rndRecord [1, 2] st1 1 Outcome.LOSS
     rndOver pr.1 pr.2 = true ∧ 2 ∈ pr.1 ∧ ¬((some 2) ∈ doneList pr.2)) := by
  decide

/-- Claim C9, counterexample: the simple-dialect discard is checked before
legality, so an illegal move from the current simple client with a pending
unanswered `stop` is dropped silently — no error frame echoes the request
id, refuting the claim as stated. -/
theorem c9_simple_imbalance_no_error :
    msgIllegalSimple.client = gameStSimple.Current ∧
    msgIllegalSimple.ref = gameStSimple.last ∧
    msgIllegalSimple.yield = false ∧
    gameStSimple.board.Legal gameStSimple.side msgIllegalSimple.pit = false ∧
    deliverMove gameStSimple msgIllegalSimple = (gameStSimple, [], false) := by
  decide

/-- Claim C7, counterexample: with the South user upsert failing and the
rest succeeding, `SaveGame` still commits — the boolean results of the user
upserts are discarded — leaving a game row and the North agent row but no
South agent row: a sub-step failed yet a partial write was committed. -/
theorem c7_user_failure_still_commits :
    (SaveGame { southFail := true, northFail := false, gameFail := false }
        dbEmpty gameEx7).1.games.length = 1 ∧
    (SaveGame { southFail := true, northFail := false, gameFail := false }
        dbEmpty gameEx7).1.agents.length = 1 ∧
    (SaveGame { southFail := true, northFail := false, gameFail := false }
        dbEmpty gameEx7).1 ≠ dbEmpty := by
  refine ⟨by decide, by decide, by decide⟩

/-- Agent inserts leave the game table untouched. -/
theorem insertAgent_games (f : Bool) (tx : DBState) (u : User) :
    (insertAgent f tx u).1.games = tx.games := by
  unfold insertAgent
  split <;> rfl

/-- Every path through the user upsert leaves the game table untouched. -/
theorem saveUser_games (f : Bool) (c tx : DBState) (u : User) :
    (saveUser f c tx u).1.games = tx.games := by
  unfold saveUser
  repeat' split
  all_goals first
  | rfl
  | exact insertAgent_games _ _ _

/-- The fresh game rowid depends only on the game table. -/
theorem nextGameId_congr {a b : DBState} (h : a.games = b.games) :
    nextGameId a = nextGameId b := by
  unfold nextGameId
  rw [h]

/-- Claim C5, amended: while the game is WAITING, a non-yield move reply is
ignored — nothing recorded, no frame emitted, no state change — whenever
its sender is not the current player, or its echoed id is neither the
outstanding `game.last` nor the zero reference that `IsCurrent` also
accepts. -/
theorem c5_stale_or_foreign_ignored (g : GameSt) (m : MoveMsg)
    (_hy : m.yield = false)
    (h : m.client ≠ g.Current ∨ (m.ref ≠ g.last ∧ m.ref ≠ 0)) :
    deliverMove g m = (g, [], false) := by
  have hcur : g.IsCurrent m.client m.ref = false := by
    unfold GameSt.IsCurrent
    rcases h with h | ⟨h1, h2⟩
    · have h3 : g.Current ≠ m.client := fun hc => h hc.symm
      simp [h3]
    · have h3 : g.last ≠ m.ref := fun hc => h1 hc.symm
      simp [h3, h2]
  simp [deliverMove, hcur]

/-- Witness for C5: the concrete stale reply (reference 3 against
outstanding id 5) from the current client is ignored. -/
theorem c5_stale_or_foreign_ignored_witness :
    msgStale.yield = false ∧
    (msgStale.client ≠ gameStEx.Current ∨
      (msgStale.ref ≠ gameStEx.last ∧ msgStale.ref ≠ 0)) ∧
    deliverMove gameStEx msgStale = (gameStEx, [], false) :=
  ⟨by decide, by decide,
   c5_stale_or_foreign_ignored gameStEx msgStale (by decide) (by decide)⟩

/-- Claim C9, amended: an illegal move from the current client echoing the
outstanding request id draws exactly one `error` frame echoing that id, and
everything else is untouched — the state (side, choice, `last`, timer) is
unchanged and the `next` flag stays false, so the deadline is neither reset
nor consumed — provided the move is not first discarded by the
simple-dialect yield-imbalance rule, which the source checks earlier. -/
theorem c9_illegal_move_error (g : GameSt) (m : MoveMsg)
    (hy : m.yield = false)
    (hc : m.client = g.Current)
    (hr : m.ref = g.last)
    (hs : ¬(m.client.simple = true ∧ m.client.nstop ≠ m.client.nyield))
    (hl : g.board.Legal g.side m.pit = false) :
    deliverMove g m = (g, [OutMsg.error m.ref (illegalMoveMsg m.pit)], false) := by
  have hcur : g.IsCurrent m.client m.ref = true := by
    unfold GameSt.IsCurrent
    simp [hc, hr]
  simp [deliverMove, hcur, moveBranch, hy, hs, hl]

/-- Witness for C9: the concrete illegal move (pit 9 on the 3-pit board)
from the current non-simple client draws the error frame and changes
nothing. -/
theorem c9_illegal_move_error_witness :
    msgIllegal.yield = false ∧
    msgIllegal.client = gameStEx.Current ∧
    msgIllegal.ref = gameStEx.last ∧
    ¬(msgIllegal.client.simple = true ∧
        msgIllegal.client.nstop ≠ msgIllegal.client.nyield) ∧
    gameStEx.board.Legal gameStEx.side msgIllegal.pit = false ∧
    deliverMove gameStEx msgIllegal =
      (gameStEx, [OutMsg.error msgIllegal.ref (illegalMoveMsg msgIllegal.pit)], false) :=
  ⟨by decide, by decide, by decide, by decide, by decide,
   c9_illegal_move_error gameStEx msgIllegal (by decide) (by decide) (by decide)
     (by decide) (by decide)⟩

/-- Claim C4, amended: the four-participant round robin generates exactly
C(4,2) = 6 pairings on the first `Ready`; `Record` never changes the
scheduler state; `Over` holds exactly when the generated pairing set is
empty; and since a pairing leaves the set when its game starts, `Over`
flips from false to true at the moment the sixth game is started, possibly
before it completes. -/
theorem c4_pairings_and_over :
    ((rrReady [0, 1, 2, 3] rrFresh 0).games.map List.length = some 6) ∧
    (∀ st : RRSt, rrRecord st = st) ∧
    (∀ st : RRSt, rrOver st = true ↔ st.games = some []) ∧
    (rrOver (rrRun [0, 1, 2, 3] rrFresh (rrSeq.take 11)) = false) ∧
    (rrOver (rrRun [0, 1, 2, 3] rrFresh rrSeq) = true) ∧
    ((rrRun [0, 1, 2, 3] rrFresh rrSeq).started.length = 6) := by
  refine ⟨by decide, fun st => rfl, ?_, by decide, by decide, by decide⟩
  intro st
  cases hg : st.games with
  | none => simp [rrOver, hg]
  | some gs => cases gs <;> simp [rrOver, hg, List.isEmpty]

/-- Claim C8, amended: `random.Over` compares the participant count with
the size of the `done` map; whenever every (distinct) participant appears
in `done` — which also holds the nil sentinel — `Over` is true, though the
counterexample shows it can become true earlier. -/
theorem c8_over_length_test (parts : List Nat) (st : RndSt) (d : List (Option Nat))
    (hd : st.done = some d) (hnil : none ∈ d)
    (hp : parts.Nodup) (hall : ∀ p ∈ parts, (some p) ∈ d) :
    rndOver parts st = true := by
  have hsub : (none :: parts.map some) ⊆ d := by
    intro x hx
    rcases List.mem_cons.mp hx with h | h
    · exact h ▸ hnil
    · rcases List.mem_map.mp h with ⟨p, hp2, hpe⟩
      exact hpe ▸ hall p hp2
  have hinj : Function.Injective (fun n : Nat => some n) := by
    intro a b hab
    exact Option.some.inj hab
  have hnd : (none :: parts.map some).Nodup := by
    refine List.nodup_cons.mpr ⟨?_, hp.map hinj⟩
    intro hmem
    rcases List.mem_map.mp hmem with ⟨p, _, hcontra⟩
    exact Option.noConfusion hcontra
  have hlen : (none :: parts.map some).length ≤ d.length :=
    (List.subperm_of_subset hnd hsub).length_le
  have hlen2 : parts.length + 1 ≤ d.length := by simpa using hlen
  simp only [rndOver, doneList, hd]
  exact decide_eq_true (by omega)

/-- Witness for C8: with the single participant 1 recorded as done,
`Over` is true. -/
theorem c8_over_length_test_witness :
    rndOver [1] { done := some [none, some 1], started := [1] } = true :=
  c8_over_length_test [1] { done := some [none, some 1], started := [1] }
    [none, some 1] rfl (by decide) (by decide) (by decide)

/-- Claim C10: saving a fresh user (`Id = 0`, non-empty token) whose token
row stores the same name and description assigns the stored id and inserts
nothing — re-inserting an agent with identical (token, name, descr) yields
the same id — while a differing name or description appends a fresh row
carrying the user's data and assigns the fresh id. -/
theorem c10_saveuser_idempotent (d tx : DBState) (u : User) (row : AgentRow)
    (h0 : u.Id = 0) (ht : u.Token ≠ "")
    (hl : lookupAgentToken d u.Token = some row) :
    ((row.name = u.Name ∧ row.descr = u.Descr) →
       saveUser false d tx u = (tx, { u with Id := row.id }, true)) ∧
    (¬(row.name = u.Name ∧ row.descr = u.Descr) →
       (saveUser false d tx u).1.agents = tx.agents ++
         [{ id := nextAgentId tx, token := u.Token, name := u.Name,
            descr := u.Descr, author := u.Author }] ∧
       (saveUser false d tx u).2.1.Id = nextAgentId tx) := by
  refine ⟨?_, ?_⟩
  · rintro ⟨hn, hd2⟩
    simp [saveUser, h0, ht, hl, hn, hd2]
  · intro h
    by_cases hn : u.Name = row.name
    · have hd2 : u.Descr ≠ row.descr := fun hdd => h ⟨hn.symm, hdd.symm⟩
      simp [saveUser, h0, ht, hl, hn, hd2, insertAgent]
    · simp [saveUser, h0, ht, hl, hn, insertAgent]

/-- Witness for C10: re-saving `user10` against its identical stored row
returns id 7 without touching the table, and saving the drifted `user10b`
appends a fresh row with id 8. -/
theorem c10_saveuser_idempotent_witness :
    saveUser false db10 db10 user10 = (db10, { user10 with Id := 7 }, true) ∧
    (saveUser false db10 db10 user10b).1.agents = db10.agents ++
      [{ id := 8, token := "tok", name := "Bob", descr := "D", author := "A" }] :=
  ⟨(c10_saveuser_idempotent db10 db10 user10 row10 rfl (by decide) (by decide)).1
     (by decide),
   ((c10_saveuser_idempotent db10 db10 user10b row10 rfl (by decide) (by decide)).2
     (by decide)).1⟩

/-- Claim C7, amended: `SaveGame` runs inside one transaction whose commit
is atomic in this model; a game-upsert failure aborts it, leaving the
database exactly as before; a first save (`Id = 0`) appends one game row
with the fresh rowid and the game's state string and assigns that id to the
game; a later save (`Id ≠ 0`) rewrites only the state string of the
addressed row.  (User-upsert failures, however, are discarded and do not
prevent the commit — see the counterexample.) -/
theorem c7_savegame_transaction (d : DBState) (g : GameObj) (f : SGFail) :
    (f.gameFail = true → (SaveGame f d g).1 = d) ∧
    (f.gameFail = false → g.Id = 0 →
       (SaveGame f d g).2.Id = nextGameId d ∧
       (∃ row : GameRow, (SaveGame f d g).1.games = d.games ++ [row] ∧
          row.id = nextGameId d ∧ row.size = g.size ∧ row.init = g.init ∧
          row.state = g.state)) ∧
    (f.gameFail = false → g.Id ≠ 0 →
       (SaveGame f d g).2.Id = g.Id ∧
       (SaveGame f d g).1.games = updateGameState d.games g.Id g.state) := by
  have hg2 : (saveUser f.northFail d (saveUser f.southFail d d g.south).1 g.north).1.games
      = d.games := by
    rw [saveUser_games, saveUser_games]
  have hnext : nextGameId (saveUser f.northFail d (saveUser f.southFail d d g.south).1 g.north).1
      = nextGameId d := nextGameId_congr hg2
  refine ⟨?_, ?_, ?_⟩
  · intro hf
    simp [SaveGame, saveGameTx, hf]
  · intro hf h0
    refine ⟨?_, ?_⟩
    · simp [SaveGame, saveGameTx, hf, h0, hnext]
    · refine ⟨insertedRow f d g, ?_, rfl, rfl, rfl, rfl⟩
      simp [SaveGame, saveGameTx, insertedRow, hf, h0, hg2, hnext]
  · intro hf h0
    refine ⟨?_, ?_⟩
    · simp [SaveGame, saveGameTx, hf, h0]
    · simp [SaveGame, saveGameTx, hf, h0, hg2]

/-- Witness for C7: on the empty database, a failing game upsert leaves the
database unchanged, and a fully successful first save assigns the fresh
rowid to the game. -/
theorem c7_savegame_transaction_witness :
    (SaveGame { southFail := false, northFail := false, gameFail := true }
        dbEmpty gameEx7).1 = dbEmpty ∧
    (SaveGame sgNoFail dbEmpty gameEx7).2.Id = nextGameId dbEmpty :=
  ⟨(c7_savegame_transaction dbEmpty gameEx7
      { southFail := false, northFail := false, gameFail := true }).1 rfl,
   ((c7_savegame_transaction dbEmpty gameEx7 sgNoFail).2.1 rfl rfl).1⟩
